import Mathlib

/-!
Verification of the cash-reconciliation engine of the bodega-verde API.

The engine lives in `src/services/reconciler.js` (`reconcileDate`,
`reconcileDateRange`) with the HTTP batch endpoint in the reconciliation
router (`router.post('/reconcile/batch')`).  JavaScript numbers are IEEE
doubles; the embedding uses exact rationals `ℚ`, the idealised decimal
semantics the design contracts are phrased in.  `Math.round` in JavaScript
rounds half toward positive infinity, i.e. `⌊x + 1/2⌋`; that is embedded
exactly.  Database rows are embedded as lists of structures; SQL `WHERE`
filters become `List.filter`, and the JavaScript `Map` with last-write-wins
`set` becomes a left fold that keeps the latest hit.
-/

namespace BodegaVerde

/-- Status column of a reconciliation row (`matched | over_collection |
under_collection | unaccounted`). -/
inductive RecStatus
  | matched
  | over_collection
  | under_collection
  | unaccounted
deriving DecidableEq, Repr

/-- A row of the `orders` table (the columns the engine reads). -/
structure Order where
  order_id : String
  store_id : String
  pickup_date : String
  expected_amount : ℚ
deriving DecidableEq, Repr

/-- A row of the `cash_reports` table.  The stored `order_ids` column is a
string fed to `JSON.parse`; the field here is the parse outcome: `none`
models `JSON.parse` throwing (malformed data), `some ids` a successful parse
to an array of identifier strings. -/
structure CashReport where
  report_id : String
  store_id : String
  report_date : String
  total_collected : ℚ
  order_ids : Option (List String)
deriving DecidableEq, Repr

/-- A row of the `reconciliations` table.  The random `id` (a fresh UUID per
insert) is omitted; `is_high_priority` is stored as 0/1 in SQLite and is a
`Bool` here; `reconciled_at` carries the `now` timestamp string. -/
structure RecRecord where
  order_id : String
  report_id : Option String
  store_id : String
  reconciliation_date : String
  expected_amount : ℚ
  actual_amount : Option ℚ
  variance_amount : Option ℚ
  variance_pct : Option ℚ
  status : RecStatus
  is_high_priority : Bool
  reconciled_at : String
deriving DecidableEq, Repr

/-- JavaScript `Math.round`: nearest integer, halves toward `+∞`. -/
def jsRound (x : ℚ) : ℤ := ⌊x + 1/2⌋

/-- `round2` from reconciler.js: `Math.round(n * 100) / 100`. -/
def round2 (n : ℚ) : ℚ := ((jsRound (n * 100) : ℤ) : ℚ) / 100

/-- Modelled from the spec words of §4.2: rounding to the nearest integer
with halves away from zero (the spec's stated rounding mode). -/
def roundHalfAway (x : ℚ) : ℤ := if 0 ≤ x then ⌊x + 1/2⌋ else -⌊-x + 1/2⌋

/-- Modelled from the spec words of §4.2: round to 2 decimal places using
round-half-away-from-zero. -/
def roundAway2 (n : ℚ) : ℚ := ((roundHalfAway (n * 100) : ℤ) : ℚ) / 100

/-- The claimed-identifier list a report contributes: the parsed array, or
`[]` when `JSON.parse` threw (the `try/catch` in reconciler.js lines 80-85). -/
def parsedIds (r : CashReport) : List String := r.order_ids.getD []

/-- The `orderToReport` map of reconciler.js lines 77-92: reports are
iterated in order and each claimed identifier is `set`, so the last report
claiming an identifier wins. -/
def orderToReport (reports : List CashReport) (oid : String) : Option CashReport :=
  reports.foldl (fun acc r => if (parsedIds r).contains oid then some r else acc) none

/-- Reconciler.js lines 101-109: the allocation denominator for one report:
iterate its parsed identifier list and add the expected amount of the first
matching order (if any) per occurrence. -/
def reportExpectedSum (orders : List Order) (ids : List String) : ℚ :=
  ids.foldl (fun s oid =>
    match orders.find? (fun o => o.order_id == oid) with
    | some o => s + o.expected_amount
    | none => s) 0

/-- The `reportMeta` map of reconciler.js line 86: keyed by `report_id` with
`Map.set`, so the last report with a given identifier wins. -/
def reportMetaLookup (reports : List CashReport) (rid : String) : Option CashReport :=
  reports.foldl (fun acc r => if r.report_id == rid then some r else acc) none

/-- `reportExpectedSum.get(reportId) ?? 0` of reconciler.js line 131: the
pre-computed denominator stored under a report identifier. -/
def sumForReportId (orders : List Order) (reports : List CashReport) (rid : String) : ℚ :=
  match reportMetaLookup reports rid with
  | some r => reportExpectedSum orders (parsedIds r)
  | none => 0

/-- One iteration of the per-order loop of reconciler.js lines 116-176. -/
def reconcileOrder (date now : String) (orders : List Order) (reports : List CashReport)
    (o : Order) : RecRecord :=
  match orderToReport reports o.order_id with
  | none =>
      { order_id := o.order_id
        report_id := none
        store_id := o.store_id
        reconciliation_date := date
        expected_amount := round2 o.expected_amount
        actual_amount := none
        variance_amount := none
        variance_pct := none
        status := .unaccounted
        is_high_priority := false
        reconciled_at := now }
  | some rep =>
      let sumExpected := sumForReportId orders reports rep.report_id
      let actualAmount :=
        if 0 < sumExpected then
          round2 (o.expected_amount / sumExpected * rep.total_collected)
        else
          round2 rep.total_collected
      let varianceAmount := round2 (actualAmount - o.expected_amount)
      let variancePct :=
        if o.expected_amount ≠ 0 then round2 (varianceAmount / o.expected_amount * 100)
        else 0
      let clamp := |varianceAmount| < 1/200
      let varianceAmount2 := if clamp then 0 else varianceAmount
      let variancePct2 := if clamp then 0 else variancePct
      let status : RecStatus :=
        if clamp then .matched
        else if 0 < varianceAmount then .over_collection
        else .under_collection
      { order_id := o.order_id
        report_id := some rep.report_id
        store_id := o.store_id
        reconciliation_date := date
        expected_amount := round2 o.expected_amount
        actual_amount := some actualAmount
        variance_amount := some varianceAmount2
        variance_pct := some variancePct2
        status := status
        is_high_priority := decide (100 < |varianceAmount2| ∨ 10 < |variancePct2|)
        reconciled_at := now }

/-- The optional `AND store_id = ?` clause of the SQL queries. -/
def storeMatches (store : Option String) (sid : String) : Bool :=
  match store with
  | some s => sid == s
  | none => true

/-- `SELECT * FROM orders WHERE pickup_date = ? [AND store_id = ?]`. -/
def ordersFor (date : String) (store : Option String) (l : List Order) : List Order :=
  l.filter (fun o => o.pickup_date == date && storeMatches store o.store_id)

/-- `SELECT * FROM cash_reports WHERE report_date = ? [AND store_id = ?]`. -/
def reportsFor (date : String) (store : Option String) (l : List CashReport) :
    List CashReport :=
  l.filter (fun r => r.report_date == date && storeMatches store r.store_id)

/-- The full record list computed by reconciler.js lines 114-176. -/
def reconcileRecords (date now : String) (orders : List Order)
    (reports : List CashReport) : List RecRecord :=
  orders.map (reconcileOrder date now orders reports)

/-- A reconciliation row matched by the `DELETE` of reconciler.js lines
181-183 for the given date and optional store filter. -/
def inScope (date : String) (store : Option String) (r : RecRecord) : Bool :=
  r.reconciliation_date == date && storeMatches store r.store_id

/-- The three tables the engine touches. -/
structure DbState where
  orders : List Order
  reports : List CashReport
  reconciliations : List RecRecord
deriving DecidableEq, Repr

/-- `reconcileDate` of reconciler.js: fetch the scope, compute one record
per order, then (transactionally) delete the in-scope reconciliation rows
and insert the fresh records.  Returns the records and the new state. -/
def reconcileDate (date : String) (store : Option String) (now : String)
    (st : DbState) : List RecRecord × DbState :=
  let ords := ordersFor date store st.orders
  let reps := reportsFor date store st.reports
  let records := reconcileRecords date now ords reps
  (records,
   { st with reconciliations :=
       st.reconciliations.filter (fun r => !(inScope date store r)) ++ records })


/-- A primitive statement executed inside the persistence transaction of
reconciler.js lines 196-207: the scoped `DELETE` or one row `INSERT`. -/
inductive LedgerOp
  | del (date : String) (store : Option String)
  | ins (r : RecRecord)
deriving DecidableEq, Repr

/-- Effect of one statement on the `reconciliations` table. -/
def applyOp (l : List RecRecord) : LedgerOp → List RecRecord
  | .del date store => l.filter (fun r => !(inScope date store r))
  | .ins r => l ++ [r]

/-- Effect of a statement sequence, first to last. -/
def applyOps (ops : List LedgerOp) (l : List RecRecord) : List RecRecord :=
  ops.foldl applyOp l

/-- The statement sequence reconciler.js runs inside its transaction: the
scoped delete, then one insert per computed record, in order. -/
def persistOps (date : String) (store : Option String)
    (records : List RecRecord) : List LedgerOp :=
  .del date store :: records.map .ins

/-- Modelled from the transaction contract of the persistence layer
(better-sqlite3 `db.transaction`): if any statement throws, the whole
transaction rolls back and the error propagates; otherwise all statements
apply.  `failAt = some k` with `k < ops.length` models statement `k`
throwing; the returned flag is `false` exactly when the run failed. -/
def runTxn (ops : List LedgerOp) (failAt : Option ℕ) (l : List RecRecord) :
    List RecRecord × Bool :=
  match failAt with
  | some k => if k < ops.length then (l, false) else (applyOps ops l, true)
  | none => (applyOps ops l, true)

/-- A calendar date as year/month/day numbers. -/
structure CalDate where
  y : ℕ
  m : ℕ
  d : ℕ
deriving DecidableEq, Repr

/-- Parse an ISO `YYYY-MM-DD` string into numbers (`new Date(...)` on a
well-formed date string; a string that does not parse yields `none`,
matching the `Invalid Date` whose comparisons are all false). -/
def parseDate (s : String) : Option CalDate :=
  match s.splitOn "-" with
  | [ys, ms, ds] =>
      match ys.toNat?, ms.toNat?, ds.toNat? with
      | some yv, some mv, some dv => some ⟨yv, mv, dv⟩
      | _, _, _ => none
  | _ => none

/-- Gregorian leap year. -/
def isLeap (yv : ℕ) : Bool := (yv % 4 == 0 && yv % 100 != 0) || yv % 400 == 0

/-- Days in a month of the proleptic Gregorian calendar. -/
def daysInMonth (yv mv : ℕ) : ℕ :=
  if mv == 2 then (if isLeap yv then 29 else 28)
  else if mv == 4 || mv == 6 || mv == 9 || mv == 11 then 30
  else 31

/-- `current.setUTCDate(current.getUTCDate() + 1)`: the next calendar day. -/
def succDay (dt : CalDate) : CalDate :=
  if dt.d < daysInMonth dt.y dt.m then ⟨dt.y, dt.m, dt.d + 1⟩
  else if dt.m < 12 then ⟨dt.y, dt.m + 1, 1⟩
  else ⟨dt.y + 1, 1, 1⟩

/-- `current <= end` on UTC-midnight timestamps: calendar order. -/
def dateLe (a b : CalDate) : Bool :=
  a.y < b.y || (a.y == b.y && (a.m < b.m || (a.m == b.m && a.d ≤ b.d)))

/-- Left-pad a number to 2 digits, as `toISOString` renders months/days. -/
def pad2 (n : ℕ) : String := if n < 10 then "0" ++ toString n else toString n

/-- Left-pad a year to 4 digits, as `toISOString` renders years. -/
def pad4 (n : ℕ) : String :=
  if n < 10 then "000" ++ toString n
  else if n < 100 then "00" ++ toString n
  else if n < 1000 then "0" ++ toString n
  else toString n

/-- `current.toISOString().slice(0, 10)`. -/
def fmtDate (dt : CalDate) : String :=
  pad4 dt.y ++ "-" ++ pad2 dt.m ++ "-" ++ pad2 dt.d

/-- The `while (current <= end)` day loop, driven by a fuel bound that
dominates the number of iterations. -/
def datesAux : ℕ → CalDate → CalDate → List CalDate
  | 0, _, _ => []
  | fuel + 1, cur, e => if dateLe cur e then cur :: datesAux fuel (succDay cur) e else []

/-- All dates visited by the loop of `reconcileDateRange` for the inclusive
range `[f, t]`. -/
def datesInRange (f t : String) : List CalDate :=
  match parseDate f, parseDate t with
  | some a, some b => datesAux (366 * (b.y + 2)) a b
  | _, _ => []

/-- `reconcileDateRange` of reconciler.js lines 221-236: run `reconcileDate`
for every day of the inclusive range and concatenate the records. -/
def reconcileDateRange (f t : String) (store : Option String) (now : String)
    (st : DbState) : List RecRecord × DbState :=
  (datesInRange f t).foldl
    (fun acc dt =>
      let day := reconcileDate (fmtDate dt) store now acc.2
      (acc.1 ++ day.1, day.2))
    ([], st)

/-- Outcome of the batch HTTP handler: a 400 validation error or the flat
record list of the range run. -/
inductive BatchResp
  | err (status : ℕ) (msg : String)
  | ok (records : List RecRecord)
deriving DecidableEq, Repr

/-- `router.post('/reconcile/batch')` of the reconciliation router: require
`from` and `to` (an absent field is modelled as the falsy empty string),
reject `from > to` with a 400 before any work, otherwise run the range.
JavaScript compares the two date strings lexicographically, as `<` on
`String` does here. -/
def batchHandler (f t : String) (store : Option String) (now : String)
    (st : DbState) : BatchResp × DbState :=
  if f = "" ∨ t = "" then
    (.err 400 "\"from\" and \"to\" date fields are required", st)
  else if t < f then
    (.err 400 "\"from\" date must be less than or equal to \"to\" date", st)
  else
    let run := reconcileDateRange f t store now st
    (.ok run.1, run.2)
/-- Contribution of one claimed identifier to the allocation denominator:
the expected amount of the first matching fetched order, or nothing. -/
def expectedOf (orders : List Order) (oid : String) : ℚ :=
  match orders.find? (fun o => o.order_id == oid) with
  | some o => o.expected_amount
  | none => 0

/-- Sum of the allocated actual amounts over the records of the orders a
report claims (absent allocations count as 0, but every claimed record of a
positive-denominator report carries one). -/
def claimedSum (records : List RecRecord) (rep : CashReport) : ℚ :=
  ((records.filter (fun r => (parsedIds rep).contains r.order_id)).map
    (fun r => r.actual_amount.getD 0)).sum

/-- Number of records of orders the report claims. -/
def claimedCount (records : List RecRecord) (rep : CashReport) : ℕ :=
  (records.filter (fun r => (parsedIds rep).contains r.order_id)).length

/-! ### Helper lemmas -/

theorem jsRound_abs_le (x : ℚ) : |((jsRound x : ℤ) : ℚ) - x| ≤ 1/2 := by
  rw [abs_le]
  constructor
  · have h := Int.lt_floor_add_one (x + 1/2)
    unfold jsRound
    linarith
  · have h := Int.floor_le (x + 1/2)
    unfold jsRound
    linarith

theorem round2_abs_le (x : ℚ) : |round2 x - x| ≤ 1/200 := by
  have h := jsRound_abs_le (x * 100)
  have h2 : round2 x - x = (((jsRound (x * 100) : ℤ) : ℚ) - x * 100) / 100 := by
    unfold round2
    ring
  rw [h2, abs_div, show |(100 : ℚ)| = 100 by norm_num]
  linarith

theorem round2_eq_roundAway2 {n : ℚ} (h : 0 ≤ n) : round2 n = roundAway2 n := by
  unfold round2 roundAway2 roundHalfAway jsRound
  rw [if_pos (by positivity)]

theorem reconcileOrder_order_id (date now : String) (orders : List Order)
    (reports : List CashReport) (o : Order) :
    (reconcileOrder date now orders reports o).order_id = o.order_id := by
  cases h : orderToReport reports o.order_id <;> simp [reconcileOrder, h]

theorem reconcileOrder_store_id (date now : String) (orders : List Order)
    (reports : List CashReport) (o : Order) :
    (reconcileOrder date now orders reports o).store_id = o.store_id := by
  cases h : orderToReport reports o.order_id <;> simp [reconcileOrder, h]

theorem reconcileOrder_date (date now : String) (orders : List Order)
    (reports : List CashReport) (o : Order) :
    (reconcileOrder date now orders reports o).reconciliation_date = date := by
  cases h : orderToReport reports o.order_id <;> simp [reconcileOrder, h]

theorem reportExpectedSum_go (orders : List Order) :
    ∀ (ids : List String) (s : ℚ),
      ids.foldl (fun s oid =>
        match orders.find? (fun o => o.order_id == oid) with
        | some o => s + o.expected_amount
        | none => s) s = s + (ids.map (expectedOf orders)).sum := by
  intro ids
  induction ids with
  | nil => intro s; simp
  | cons i ids ih =>
      intro s
      simp only [List.foldl_cons, List.map_cons, List.sum_cons]
      cases h : orders.find? (fun o => o.order_id == i) with
      | none => rw [ih]; simp [expectedOf, h]
      | some o => rw [ih]; simp [expectedOf, h]; ring

theorem reportExpectedSum_eq_sum_map (orders : List Order) (ids : List String) :
    reportExpectedSum orders ids = (ids.map (expectedOf orders)).sum := by
  unfold reportExpectedSum
  rw [reportExpectedSum_go]
  simp
theorem filter_beq_of_nodup (orders : List Order) (oid : String)
    (hnd : (orders.map (fun o => o.order_id)).Nodup) :
    ((orders.filter (fun o => o.order_id == oid)).map
      (fun o => o.expected_amount)).sum = expectedOf orders oid := by
  induction orders with
  | nil => simp [expectedOf]
  | cons o rest ih =>
      simp only [List.map_cons, List.nodup_cons] at hnd
      by_cases h : o.order_id = oid
      · have hrest : rest.filter (fun x => x.order_id == oid) = [] := by
          apply List.filter_eq_nil_iff.mpr
          intro x hx hbeq
          exact hnd.1 (h ▸ (eq_of_beq hbeq).symm ▸ List.mem_map_of_mem _ hx)
        simp [expectedOf, List.find?, h, List.filter_cons, hrest]
      · have hbeq : (o.order_id == oid) = false := beq_eq_false_iff_ne.mpr h
        simp only [List.filter_cons, hbeq, Bool.false_eq_true, if_false]
        rw [ih hnd.2]
        simp [expectedOf, List.find?, hbeq]

theorem filter_or_sum (l : List Order) (p q : Order → Bool)
    (hdisj : ∀ a, ¬(p a = true ∧ q a = true)) :
    ((l.filter (fun a => p a || q a)).map (fun o => o.expected_amount)).sum
      = ((l.filter p).map (fun o => o.expected_amount)).sum
        + ((l.filter q).map (fun o => o.expected_amount)).sum := by
  induction l with
  | nil => simp
  | cons a rest ih =>
      simp only [List.filter_cons]
      cases hp : p a with
      | true =>
          have hq : q a = false := by
            cases hq : q a with
            | true => exact absurd ⟨hp, hq⟩ (hdisj a)
            | false => rfl
          simp [hp, hq, ih]
          ring
      | false =>
          cases hq : q a with
          | true => simp [hp, hq, ih]; ring
          | false => simp [hp, hq, ih]

theorem reportExpectedSum_eq_claimed_sum (orders : List Order) (ids : List String)
    (hids : ids.Nodup) (hnd : (orders.map (fun o => o.order_id)).Nodup) :
    reportExpectedSum orders ids
      = ((orders.filter (fun o => ids.contains o.order_id)).map
          (fun o => o.expected_amount)).sum := by
  induction ids with
  | nil => simp [reportExpectedSum]
  | cons i rest ih =>
      rw [List.nodup_cons] at hids
      rw [reportExpectedSum_eq_sum_map, List.map_cons, List.sum_cons,
        ← reportExpectedSum_eq_sum_map, ih hids.2]
      have hfil :
          orders.filter (fun o => (i :: rest).contains o.order_id)
            = orders.filter (fun o => (o.order_id == i) || rest.contains o.order_id) :=
        List.filter_congr (fun o _ => by rw [List.contains_cons])
      rw [hfil, filter_or_sum orders _ _ ?hdisj, filter_beq_of_nodup orders i hnd]
      case hdisj =>
        intro a ⟨h1, h2⟩
        exact hids.1 ((eq_of_beq h1) ▸ (List.elem_iff.mp h2))
theorem filter_not_filter (l : List RecRecord) (p : RecRecord → Bool) :
    (l.filter (fun r => !(p r))).filter p = [] := by
  apply List.filter_eq_nil_iff.mpr
  intro r hr
  have := (List.mem_filter.mp hr).2
  simp at this
  simp [this]

theorem map_filter_comm (l : List Order) (f : Order → RecRecord) (p : RecRecord → Bool) :
    (l.map f).filter p = (l.filter (fun x => p (f x))).map f := by
  induction l with
  | nil => simp
  | cons a rest ih =>
      simp only [List.map_cons, List.filter_cons]
      cases h : p (f a) <;> simp [h, ih]

theorem sum_round2_map_bound (l : List Order) (g : Order → ℚ) :
    |(l.map (fun a => round2 (g a))).sum - (l.map g).sum| ≤ (l.length : ℚ) * (1/200) := by
  induction l with
  | nil => simp
  | cons a rest ih =>
      simp only [List.map_cons, List.sum_cons, List.length_cons]
      have tri : |round2 (g a) + (rest.map (fun a => round2 (g a))).sum
          - (g a + (rest.map g).sum)|
          ≤ |round2 (g a) - g a|
            + |(rest.map (fun a => round2 (g a))).sum - (rest.map g).sum| := by
        have := abs_add (round2 (g a) - g a)
          ((rest.map (fun a => round2 (g a))).sum - (rest.map g).sum)
        calc |round2 (g a) + (rest.map (fun a => round2 (g a))).sum
            - (g a + (rest.map g).sum)|
            = |(round2 (g a) - g a)
              + ((rest.map (fun a => round2 (g a))).sum - (rest.map g).sum)| := by
              ring_nf
          _ ≤ _ := this
      have hr := round2_abs_le (g a)
      have : ((rest.length + 1 : ℕ) : ℚ) * (1/200)
          = 1/200 + (rest.length : ℚ) * (1/200) := by
        push_cast
        ring
      rw [this]
      linarith

theorem sum_map_mul_const (l : List Order) (g : Order → ℚ) (c : ℚ) :
    (l.map (fun a => g a * c)).sum = (l.map g).sum * c := by
  induction l with
  | nil => simp
  | cons a rest ih => simp [ih]; ring

theorem applyOps_ins (records : List RecRecord) :
    ∀ l : List RecRecord, applyOps (records.map .ins) l = l ++ records := by
  induction records with
  | nil => intro l; simp [applyOps]
  | cons r rest ih =>
      intro l
      simp only [List.map_cons]
      show applyOps (LedgerOp.ins r :: rest.map .ins) l = l ++ r :: rest
      unfold applyOps
      rw [List.foldl_cons]
      have := ih (applyOp l (.ins r))
      unfold applyOps at this
      rw [this]
      simp [applyOp]
theorem orderToReport_skip (l₁ l₂ : List CashReport) (R R2 : CashReport)
    (hR : parsedIds R = []) (hR2 : parsedIds R2 = []) (oid : String) :
    orderToReport (l₁ ++ R :: l₂) oid = orderToReport (l₁ ++ R2 :: l₂) oid := by
  unfold orderToReport
  rw [List.foldl_append, List.foldl_append, List.foldl_cons, List.foldl_cons]
  rw [hR, hR2]
  simp

theorem metaLookup_map_congr (orders : List Order) (rid : String) :
    ∀ (l : List CashReport) (a b : Option CashReport),
      Option.map (fun r => reportExpectedSum orders (parsedIds r)) a
        = Option.map (fun r => reportExpectedSum orders (parsedIds r)) b →
      Option.map (fun r => reportExpectedSum orders (parsedIds r))
          (l.foldl (fun acc r => if r.report_id == rid then some r else acc) a)
        = Option.map (fun r => reportExpectedSum orders (parsedIds r))
          (l.foldl (fun acc r => if r.report_id == rid then some r else acc) b) := by
  intro l
  induction l with
  | nil => intro a b h; exact h
  | cons r rest ih =>
      intro a b h
      rw [List.foldl_cons, List.foldl_cons]
      by_cases hc : (r.report_id == rid) = true
      · rw [if_pos hc, if_pos hc]
      · rw [if_neg hc, if_neg hc]
        exact ih _ _ h

theorem sumForReportId_eq_map (orders : List Order) (reports : List CashReport)
    (rid : String) :
    sumForReportId orders reports rid
      = (Option.map (fun r => reportExpectedSum orders (parsedIds r))
          (reportMetaLookup reports rid)).getD 0 := by
  unfold sumForReportId
  cases h : reportMetaLookup reports rid with
  | none => simp
  | some r => simp

theorem sumForReportId_malformed (orders : List Order) (l₁ l₂ : List CashReport)
    (R : CashReport) (hR : R.order_ids = none) (rid : String) :
    sumForReportId orders (l₁ ++ R :: l₂) rid
      = sumForReportId orders (l₁ ++ { R with order_ids := some [] } :: l₂) rid := by
  rw [sumForReportId_eq_map, sumForReportId_eq_map]
  unfold reportMetaLookup
  rw [List.foldl_append, List.foldl_append, List.foldl_cons, List.foldl_cons]
  apply congrArg (fun x : Option ℚ => x.getD 0)
  apply metaLookup_map_congr
  by_cases hc : (R.report_id == rid) = true
  · have hc2 : (({ R with order_ids := some [] } : CashReport).report_id == rid) = true := hc
    rw [if_pos hc, if_pos hc2]
    simp [parsedIds, hR]
  · have hc2 : ¬(({ R with order_ids := some [] } : CashReport).report_id == rid) = true := hc
    rw [if_neg hc, if_neg hc2]
/-! ### Claim theorems -/

/-- C5: an order in scope that no cash report claims produces a record with
status `unaccounted`, null allocated amount, null variance amount, null
variance percentage and a false high-priority flag, whatever report rows are
present for the date and store. -/
theorem C5_unaccounted (date now : String) (orders : List Order)
    (reports : List CashReport) (o : Order)
    (h : orderToReport reports o.order_id = none) :
    reconcileOrder date now orders reports o =
      { order_id := o.order_id
        report_id := none
        store_id := o.store_id
        reconciliation_date := date
        expected_amount := round2 o.expected_amount
        actual_amount := none
        variance_amount := none
        variance_pct := none
        status := .unaccounted
        is_high_priority := false
        reconciled_at := now } := by
  unfold reconcileOrder
  rw [h]

/-- C5 witness: a concrete order claimed by no report comes out `unaccounted`
with null amounts and no priority flag. -/
theorem C5_unaccounted_witness :
    orderToReport [⟨"R1", "S1", "2024-01-15", 500, some ["O2"]⟩] "O1" = none ∧
    reconcileOrder "2024-01-15" "t0"
        [⟨"O1", "S1", "2024-01-15", 500⟩]
        [⟨"R1", "S1", "2024-01-15", 500, some ["O2"]⟩]
        ⟨"O1", "S1", "2024-01-15", 500⟩ =
      { order_id := "O1"
        report_id := none
        store_id := "S1"
        reconciliation_date := "2024-01-15"
        expected_amount := round2 500
        actual_amount := none
        variance_amount := none
        variance_pct := none
        status := .unaccounted
        is_high_priority := false
        reconciled_at := "t0" } := by
  refine ⟨?_, ?_⟩
  · simp [orderToReport, parsedIds]
  · exact C5_unaccounted "2024-01-15" "t0"
      [⟨"O1", "S1", "2024-01-15", 500⟩]
      [⟨"R1", "S1", "2024-01-15", 500, some ["O2"]⟩]
      ⟨"O1", "S1", "2024-01-15", 500⟩
      (by simp [orderToReport, parsedIds])

/-- C4: for a claimed order the stored high-priority flag is set exactly when
the stored (post-clamp) variance amount exceeds 100 in magnitude or the
stored (post-clamp) variance percentage exceeds 10 in magnitude. -/
theorem C4_highPriority (date now : String) (orders : List Order)
    (reports : List CashReport) (o : Order) (rep : CashReport)
    (h : orderToReport reports o.order_id = some rep) :
    ((reconcileOrder date now orders reports o).is_high_priority = true
      ↔ (100 < |(reconcileOrder date now orders reports o).variance_amount.getD 0|
          ∨ 10 < |(reconcileOrder date now orders reports o).variance_pct.getD 0|)) := by
  unfold reconcileOrder
  rw [h]
  simp

/-- C4 witness: a concrete claimed order (expected 500, collected 400, so
variance −100 and −20%) is flagged high-priority, and the flag agrees with
the threshold disjunction on the stored variance values. -/
theorem C4_highPriority_witness :
    orderToReport [⟨"R1", "S1", "2024-01-15", 400, some ["O1"]⟩] "O1"
      = some ⟨"R1", "S1", "2024-01-15", 400, some ["O1"]⟩ ∧
    ((reconcileOrder "2024-01-15" "t0"
        [⟨"O1", "S1", "2024-01-15", 500⟩]
        [⟨"R1", "S1", "2024-01-15", 400, some ["O1"]⟩]
        ⟨"O1", "S1", "2024-01-15", 500⟩).is_high_priority = true
      ↔ (100 < |(reconcileOrder "2024-01-15" "t0"
            [⟨"O1", "S1", "2024-01-15", 500⟩]
            [⟨"R1", "S1", "2024-01-15", 400, some ["O1"]⟩]
            ⟨"O1", "S1", "2024-01-15", 500⟩).variance_amount.getD 0|
          ∨ 10 < |(reconcileOrder "2024-01-15" "t0"
            [⟨"O1", "S1", "2024-01-15", 500⟩]
            [⟨"R1", "S1", "2024-01-15", 400, some ["O1"]⟩]
            ⟨"O1", "S1", "2024-01-15", 500⟩).variance_pct.getD 0|)) := by
  refine ⟨by simp [orderToReport, parsedIds], ?_⟩
  exact C4_highPriority "2024-01-15" "t0"
    [⟨"O1", "S1", "2024-01-15", 500⟩]
    [⟨"R1", "S1", "2024-01-15", 400, some ["O1"]⟩]
    ⟨"O1", "S1", "2024-01-15", 500⟩
    ⟨"R1", "S1", "2024-01-15", 400, some ["O1"]⟩
    (by simp [orderToReport, parsedIds])
/-- C3: for a claimed order (allocated present) the stored fields satisfy:
variance amount is the 2-decimal rounding of allocated minus expected;
variance percentage is the 2-decimal rounding of (variance/expected)·100 for
nonzero expected and 0 otherwise; a variance magnitude below 0.005 is
clamped to exactly 0 with both stored values zeroed and status `matched`,
and otherwise the status follows the sign of the variance. -/
theorem C3_classification (date now : String) (orders : List Order)
    (reports : List CashReport) (o : Order) (rep : CashReport)
    (h : orderToReport reports o.order_id = some rep) :
    ∃ a : ℚ,
      (reconcileOrder date now orders reports o).actual_amount = some a ∧
      (let v := round2 (a - o.expected_amount)
       let p := if o.expected_amount ≠ 0 then round2 (v / o.expected_amount * 100) else 0
       if |v| < 1/200 then
         (reconcileOrder date now orders reports o).variance_amount = some 0 ∧
         (reconcileOrder date now orders reports o).variance_pct = some 0 ∧
         (reconcileOrder date now orders reports o).status = RecStatus.matched
       else
         (reconcileOrder date now orders reports o).variance_amount = some v ∧
         (reconcileOrder date now orders reports o).variance_pct = some p ∧
         (reconcileOrder date now orders reports o).status =
           (if 0 < v then RecStatus.over_collection else RecStatus.under_collection)) := by
  unfold reconcileOrder
  rw [h]
  simp only []
  refine ⟨_, rfl, ?_⟩
  split_ifs with h1 h2 <;> simp_all

/-- C3 witness: the proportional-split scenario (expected 300 of a 500-expect
report collecting 550) yields allocated 330, variance 30.00 = 10%, status
`over_collection`. -/
theorem C3_classification_witness :
    (∃ a : ℚ,
      (reconcileOrder "2024-01-15" "t0"
          [⟨"O1", "S1", "2024-01-15", 300⟩, ⟨"O2", "S1", "2024-01-15", 200⟩]
          [⟨"R1", "S1", "2024-01-15", 550, some ["O1", "O2"]⟩]
          ⟨"O1", "S1", "2024-01-15", 300⟩).actual_amount = some a ∧
      (let v := round2 (a - (300 : ℚ))
       let p := if (300 : ℚ) ≠ 0 then round2 (v / 300 * 100) else 0
       if |v| < 1/200 then
         (reconcileOrder "2024-01-15" "t0"
            [⟨"O1", "S1", "2024-01-15", 300⟩, ⟨"O2", "S1", "2024-01-15", 200⟩]
            [⟨"R1", "S1", "2024-01-15", 550, some ["O1", "O2"]⟩]
            ⟨"O1", "S1", "2024-01-15", 300⟩).variance_amount = some 0 ∧
         (reconcileOrder "2024-01-15" "t0"
            [⟨"O1", "S1", "2024-01-15", 300⟩, ⟨"O2", "S1", "2024-01-15", 200⟩]
            [⟨"R1", "S1", "2024-01-15", 550, some ["O1", "O2"]⟩]
            ⟨"O1", "S1", "2024-01-15", 300⟩).variance_pct = some 0 ∧
         (reconcileOrder "2024-01-15" "t0"
            [⟨"O1", "S1", "2024-01-15", 300⟩, ⟨"O2", "S1", "2024-01-15", 200⟩]
            [⟨"R1", "S1", "2024-01-15", 550, some ["O1", "O2"]⟩]
            ⟨"O1", "S1", "2024-01-15", 300⟩).status = RecStatus.matched
       else
         (reconcileOrder "2024-01-15" "t0"
            [⟨"O1", "S1", "2024-01-15", 300⟩, ⟨"O2", "S1", "2024-01-15", 200⟩]
            [⟨"R1", "S1", "2024-01-15", 550, some ["O1", "O2"]⟩]
            ⟨"O1", "S1", "2024-01-15", 300⟩).variance_amount = some v ∧
         (reconcileOrder "2024-01-15" "t0"
            [⟨"O1", "S1", "2024-01-15", 300⟩, ⟨"O2", "S1", "2024-01-15", 200⟩]
            [⟨"R1", "S1", "2024-01-15", 550, some ["O1", "O2"]⟩]
            ⟨"O1", "S1", "2024-01-15", 300⟩).variance_pct = some p ∧
         (reconcileOrder "2024-01-15" "t0"
            [⟨"O1", "S1", "2024-01-15", 300⟩, ⟨"O2", "S1", "2024-01-15", 200⟩]
            [⟨"R1", "S1", "2024-01-15", 550, some ["O1", "O2"]⟩]
            ⟨"O1", "S1", "2024-01-15", 300⟩).status =
           (if 0 < v then RecStatus.over_collection else RecStatus.under_collection))) := by
  exact C3_classification "2024-01-15" "t0"
    [⟨"O1", "S1", "2024-01-15", 300⟩, ⟨"O2", "S1", "2024-01-15", 200⟩]
    [⟨"R1", "S1", "2024-01-15", 550, some ["O1", "O2"]⟩]
    ⟨"O1", "S1", "2024-01-15", 300⟩
    ⟨"R1", "S1", "2024-01-15", 550, some ["O1", "O2"]⟩
    (by simp [orderToReport, parsedIds])
/-- C1 (amended): for a claimed order with positive claimed-expected sum `S`
the allocated amount is `(expected / S) · total`, rounded once at the end to
2 decimals — and on the non-negative amounts ingestion admits this single
rounding is round-half-away-from-zero, as the spec words it; for `S = 0` the
allocated amount is the report total rounded to 2 decimals (not the raw
total, which is where the original claim fails). -/
theorem C1_allocation (date now : String) (orders : List Order)
    (reports : List CashReport) (o : Order) (rep : CashReport)
    (h : orderToReport reports o.order_id = some rep)
    (hoe : 0 ≤ o.expected_amount) (ht : 0 ≤ rep.total_collected) :
    (0 < sumForReportId orders reports rep.report_id →
      (reconcileOrder date now orders reports o).actual_amount
        = some (roundAway2 (o.expected_amount
            / sumForReportId orders reports rep.report_id * rep.total_collected))) ∧
    (sumForReportId orders reports rep.report_id = 0 →
      (reconcileOrder date now orders reports o).actual_amount
        = some (round2 rep.total_collected)) := by
  unfold reconcileOrder
  rw [h]
  simp only []
  constructor
  · intro hS
    rw [if_pos hS, round2_eq_roundAway2]
    exact mul_nonneg (div_nonneg hoe (le_of_lt hS)) ht
  · intro hS
    rw [if_neg (by rw [hS]; exact lt_irrefl 0)]

/-- C1 witness: two orders expected 300 and 200 claimed by a report that
collected 550 (S = 500 > 0): the first order's allocation is the final-step
half-away rounding of (300/500)·550 = 330; and a zero-expected order claimed
by a zero-sum report gets the rounded report total. -/
theorem C1_allocation_witness :
    orderToReport [⟨"R1", "S1", "2024-01-15", 550, some ["O1", "O2"]⟩] "O1"
      = some ⟨"R1", "S1", "2024-01-15", 550, some ["O1", "O2"]⟩ ∧
    (0 : ℚ) ≤ 300 ∧ (0 : ℚ) ≤ 550 ∧
    (0 < sumForReportId
        [⟨"O1", "S1", "2024-01-15", 300⟩, ⟨"O2", "S1", "2024-01-15", 200⟩]
        [⟨"R1", "S1", "2024-01-15", 550, some ["O1", "O2"]⟩] "R1" →
      (reconcileOrder "2024-01-15" "t0"
          [⟨"O1", "S1", "2024-01-15", 300⟩, ⟨"O2", "S1", "2024-01-15", 200⟩]
          [⟨"R1", "S1", "2024-01-15", 550, some ["O1", "O2"]⟩]
          ⟨"O1", "S1", "2024-01-15", 300⟩).actual_amount
        = some (roundAway2 ((300 : ℚ)
            / sumForReportId
                [⟨"O1", "S1", "2024-01-15", 300⟩, ⟨"O2", "S1", "2024-01-15", 200⟩]
                [⟨"R1", "S1", "2024-01-15", 550, some ["O1", "O2"]⟩] "R1" * 550))) := by
  refine ⟨by simp [orderToReport, parsedIds], by norm_num, by norm_num, ?_⟩
  exact (C1_allocation "2024-01-15" "t0"
    [⟨"O1", "S1", "2024-01-15", 300⟩, ⟨"O2", "S1", "2024-01-15", 200⟩]
    [⟨"R1", "S1", "2024-01-15", 550, some ["O1", "O2"]⟩]
    ⟨"O1", "S1", "2024-01-15", 300⟩
    ⟨"R1", "S1", "2024-01-15", 550, some ["O1", "O2"]⟩
    (by simp [orderToReport, parsedIds]) (by norm_num) (by norm_num)).1

/-- C1 counterexample: a zero-expected order claimed by a report whose
claimed-expected sum is 0 and whose collected total is 0.005 is allocated
`round2(0.005) = 0.01`, not the total `0.005` "directly" as the claim
states. -/
theorem C1_counterexample :
    orderToReport [⟨"R1", "S1", "2024-01-15", 1/200, some ["O1"]⟩] "O1"
      = some ⟨"R1", "S1", "2024-01-15", 1/200, some ["O1"]⟩ ∧
    sumForReportId [⟨"O1", "S1", "2024-01-15", 0⟩]
      [⟨"R1", "S1", "2024-01-15", 1/200, some ["O1"]⟩] "R1" = 0 ∧
    (reconcileOrder "2024-01-15" "t0"
        [⟨"O1", "S1", "2024-01-15", 0⟩]
        [⟨"R1", "S1", "2024-01-15", 1/200, some ["O1"]⟩]
        ⟨"O1", "S1", "2024-01-15", 0⟩).actual_amount = some ((1 : ℚ)/100) ∧
    (reconcileOrder "2024-01-15" "t0"
        [⟨"O1", "S1", "2024-01-15", 0⟩]
        [⟨"R1", "S1", "2024-01-15", 1/200, some ["O1"]⟩]
        ⟨"O1", "S1", "2024-01-15", 0⟩).actual_amount ≠ some ((1 : ℚ)/200) := by
  refine ⟨by simp [orderToReport, parsedIds], ?_, ?_, ?_⟩
  · simp [sumForReportId, reportMetaLookup, reportExpectedSum, parsedIds, List.find?]
  · simp only [reconcileOrder, orderToReport, parsedIds, sumForReportId, reportMetaLookup,
      reportExpectedSum, round2, jsRound, List.foldl, List.find?, List.contains, List.elem,
      Option.getD]
    norm_num
  · simp only [reconcileOrder, orderToReport, parsedIds, sumForReportId, reportMetaLookup,
      reportExpectedSum, round2, jsRound, List.foldl, List.find?, List.contains, List.elem,
      Option.getD]
    norm_num
/-- C6: a single-date run replaces the in-scope slice of the reconciliation
ledger wholesale: afterwards the rows whose date (and store, under a filter)
match the scope are exactly the freshly computed records, one per in-scope
order and with distinct order identifiers — for every prior ledger state. -/
theorem C6_single_live_record (date now : String) (store : Option String) (st : DbState)
    (hnodup : ((ordersFor date store st.orders).map (fun o => o.order_id)).Nodup) :
    ((reconcileDate date store now st).2.reconciliations.filter (inScope date store))
        = (reconcileDate date store now st).1 ∧
    ((reconcileDate date store now st).1.map (fun r => r.order_id))
        = ((ordersFor date store st.orders).map (fun o => o.order_id)) ∧
    (((reconcileDate date store now st).2.reconciliations.filter
        (inScope date store)).map (fun r => r.order_id)).Nodup := by
  have hscope : ∀ r ∈ (reconcileDate date store now st).1, inScope date store r = true := by
    intro r hr
    unfold reconcileDate reconcileRecords at hr
    simp only [List.mem_map] at hr
    obtain ⟨o, ho, rfl⟩ := hr
    have hof := (List.mem_filter.mp ho).2
    simp only [Bool.and_eq_true] at hof
    unfold inScope
    rw [reconcileOrder_date, reconcileOrder_store_id]
    simp only [Bool.and_eq_true, beq_iff_eq]
    exact ⟨trivial, hof.2⟩
  have h1 : ((reconcileDate date store now st).2.reconciliations.filter
      (inScope date store)) = (reconcileDate date store now st).1 := by
    show ((st.reconciliations.filter (fun r => !(inScope date store r))
        ++ (reconcileDate date store now st).1).filter (inScope date store))
      = (reconcileDate date store now st).1
    rw [List.filter_append, filter_not_filter, List.nil_append]
    exact List.filter_eq_self.mpr hscope
  have h2 : ((reconcileDate date store now st).1.map (fun r => r.order_id))
      = ((ordersFor date store st.orders).map (fun o => o.order_id)) := by
    show (((ordersFor date store st.orders).map
        (reconcileOrder date now (ordersFor date store st.orders)
          (reportsFor date store st.reports))).map (fun r => r.order_id))
      = ((ordersFor date store st.orders).map (fun o => o.order_id))
    rw [List.map_map]
    exact List.map_congr_left (fun o _ => reconcileOrder_order_id _ _ _ _ o)
  exact ⟨h1, h2, by rw [h1, h2]; exact hnodup⟩

/-- C6 witness: reconciling a one-order scope over a ledger already holding a
stale row for that date leaves exactly the fresh record in scope. -/
theorem C6_single_live_record_witness :
    ((List.map (fun o => o.order_id) (ordersFor "2024-01-15" none
        [⟨"O1", "S1", "2024-01-15", 500⟩])).Nodup) ∧
    ((reconcileDate "2024-01-15" none "t1"
        ⟨[⟨"O1", "S1", "2024-01-15", 500⟩], [],
          [⟨"O1", none, "S1", "2024-01-15", 500, none, none, none,
            RecStatus.unaccounted, false, "t0"⟩]⟩).2.reconciliations.filter
        (inScope "2024-01-15" none))
      = (reconcileDate "2024-01-15" none "t1"
          ⟨[⟨"O1", "S1", "2024-01-15", 500⟩], [],
            [⟨"O1", none, "S1", "2024-01-15", 500, none, none, none,
              RecStatus.unaccounted, false, "t0"⟩]⟩).1 := by
  constructor
  · simp [ordersFor, storeMatches]
  · exact (C6_single_live_record "2024-01-15" "t1" none
      ⟨[⟨"O1", "S1", "2024-01-15", 500⟩], [],
        [⟨"O1", none, "S1", "2024-01-15", 500, none, none, none,
          RecStatus.unaccounted, false, "t0"⟩]⟩
      (by simp [ordersFor, storeMatches])).1

theorem applyOps_persist (date : String) (store : Option String)
    (records prior : List RecRecord) :
    applyOps (persistOps date store records) prior
      = prior.filter (fun r => !(inScope date store r)) ++ records := by
  unfold persistOps applyOps
  rw [List.foldl_cons]
  have h := applyOps_ins records (applyOp prior (.del date store))
  unfold applyOps at h
  rw [h]
  rfl

/-- C7: the persistence step runs the scoped delete and all inserts as one
transaction: under the transaction contract the resulting ledger is either
the untouched prior state or the fully rewritten state, and any failure
during the statement sequence propagates as an error with the ledger exactly
as before — never a partial mix. -/
theorem C7_atomic_persistence (date : String) (store : Option String)
    (records prior : List RecRecord) (failAt : Option ℕ) :
    ((runTxn (persistOps date store records) failAt prior).1 = prior ∨
     (runTxn (persistOps date store records) failAt prior).1
       = prior.filter (fun r => !(inScope date store r)) ++ records) ∧
    (∀ k, failAt = some k → k < (persistOps date store records).length →
      (runTxn (persistOps date store records) failAt prior).1 = prior ∧
      (runTxn (persistOps date store records) failAt prior).2 = false) := by
  have hnone : ∀ l, runTxn (persistOps date store records) none l
      = (applyOps (persistOps date store records) l, true) := fun _ => rfl
  have hsome : ∀ (k : ℕ) l, runTxn (persistOps date store records) (some k) l
      = if k < (persistOps date store records).length then (l, false)
        else (applyOps (persistOps date store records) l, true) := fun _ _ => rfl
  cases failAt with
  | none =>
      rw [hnone]
      exact ⟨Or.inr (applyOps_persist date store records prior),
        fun k hk => Option.noConfusion hk⟩
  | some k =>
      rw [hsome]
      by_cases hk : k < (persistOps date store records).length
      · rw [if_pos hk]
        exact ⟨Or.inl rfl, fun _ _ _ => ⟨rfl, rfl⟩⟩
      · rw [if_neg hk]
        refine ⟨Or.inr (applyOps_persist date store records prior), ?_⟩
        intro j hj hlen
        cases hj
        exact absurd hlen hk

/-- C7 witness: a failure at the very first statement (the delete) of a
one-record rewrite leaves the prior one-row ledger untouched and reports the
error. -/
theorem C7_atomic_persistence_witness :
    (some 0 = some 0) ∧
    0 < (persistOps "2024-01-15" none
        [⟨"O1", some "R1", "S1", "2024-01-15", 500, some 500, some 0, some 0,
          RecStatus.matched, false, "t1"⟩]).length ∧
    (runTxn (persistOps "2024-01-15" none
        [⟨"O1", some "R1", "S1", "2024-01-15", 500, some 500, some 0, some 0,
          RecStatus.matched, false, "t1"⟩]) (some 0)
        [⟨"O2", none, "S1", "2024-01-15", 400, none, none, none,
          RecStatus.unaccounted, false, "t0"⟩]).1
      = [⟨"O2", none, "S1", "2024-01-15", 400, none, none, none,
          RecStatus.unaccounted, false, "t0"⟩] ∧
    (runTxn (persistOps "2024-01-15" none
        [⟨"O1", some "R1", "S1", "2024-01-15", 500, some 500, some 0, some 0,
          RecStatus.matched, false, "t1"⟩]) (some 0)
        [⟨"O2", none, "S1", "2024-01-15", 400, none, none, none,
          RecStatus.unaccounted, false, "t0"⟩]).2 = false := by
  refine ⟨rfl, by simp [persistOps], ?_, ?_⟩
  · exact ((C7_atomic_persistence "2024-01-15" none
      [⟨"O1", some "R1", "S1", "2024-01-15", 500, some 500, some 0, some 0,
        RecStatus.matched, false, "t1"⟩]
      [⟨"O2", none, "S1", "2024-01-15", 400, none, none, none,
        RecStatus.unaccounted, false, "t0"⟩] (some 0)).2 0 rfl
      (by simp [persistOps])).1
  · exact ((C7_atomic_persistence "2024-01-15" none
      [⟨"O1", some "R1", "S1", "2024-01-15", 500, some 500, some 0, some 0,
        RecStatus.matched, false, "t1"⟩]
      [⟨"O2", none, "S1", "2024-01-15", 400, none, none, none,
        RecStatus.unaccounted, false, "t0"⟩] (some 0)).2 0 rfl
      (by simp [persistOps])).2
/-- C9: a batch request whose start date is lexicographically after its end
date is answered with a 400 validation error before any reconciliation: the
database state — in particular the reconciliation ledger — is returned
unchanged. -/
theorem C9_batch_range_validation (f t : String) (store : Option String)
    (now : String) (st : DbState) (h : t < f) :
    (batchHandler f t store now st).2 = st ∧
    ∃ msg, (batchHandler f t store now st).1 = BatchResp.err 400 msg := by
  unfold batchHandler
  by_cases h0 : f = "" ∨ t = ""
  · rw [if_pos h0]
    exact ⟨rfl, _, rfl⟩
  · rw [if_neg h0, if_pos h]
    exact ⟨rfl, _, rfl⟩

/-- C9 witness: with `from` = 2024-01-16 and `to` = 2024-01-15 over a ledger
holding one row, the handler leaves the state intact and returns a 400. -/
theorem C9_batch_range_validation_witness :
    (("2024-01-15" : String) < "2024-01-16") ∧
    (batchHandler "2024-01-16" "2024-01-15" none "t1"
        ⟨[⟨"O1", "S1", "2024-01-15", 500⟩], [],
          [⟨"O1", none, "S1", "2024-01-15", 500, none, none, none,
            RecStatus.unaccounted, false, "t0"⟩]⟩).2
      = ⟨[⟨"O1", "S1", "2024-01-15", 500⟩], [],
          [⟨"O1", none, "S1", "2024-01-15", 500, none, none, none,
            RecStatus.unaccounted, false, "t0"⟩]⟩ := by
  have hlt : ("2024-01-15" : String) < "2024-01-16" := by
    rw [String.lt_iff_toList_lt]
    decide
  exact ⟨hlt, (C9_batch_range_validation "2024-01-16" "2024-01-15" none "t1"
    ⟨[⟨"O1", "S1", "2024-01-15", 500⟩], [],
      [⟨"O1", none, "S1", "2024-01-15", 500, none, none, none,
        RecStatus.unaccounted, false, "t0"⟩]⟩ hlt).1⟩

/-- C10: the allocation denominator adds, per occurrence of an identifier in
the parsed claimed list, the expected amount of the matching in-scope order
(so a duplicated identifier contributes twice), while an identifier with no
matching order contributes nothing and yields no record in the run. -/
theorem C10_denominator (date now : String) (orders : List Order)
    (reports : List CashReport) (ids₁ ids₂ : List String) (i oid : String)
    (hnomatch : orders.find? (fun o => o.order_id == oid) = none) :
    reportExpectedSum orders (ids₁ ++ i :: ids₂)
        = reportExpectedSum orders ids₁ + expectedOf orders i
          + reportExpectedSum orders ids₂ ∧
    expectedOf orders oid = 0 ∧
    (∀ r ∈ reconcileRecords date now orders reports, r.order_id ≠ oid) := by
  refine ⟨?_, ?_, ?_⟩
  · rw [reportExpectedSum_eq_sum_map, reportExpectedSum_eq_sum_map,
      reportExpectedSum_eq_sum_map, List.map_append, List.sum_append,
      List.map_cons, List.sum_cons]
    ring
  · unfold expectedOf
    rw [hnomatch]
  · intro r hr
    unfold reconcileRecords at hr
    simp only [List.mem_map] at hr
    obtain ⟨o, ho, rfl⟩ := hr
    rw [reconcileOrder_order_id]
    intro hcontra
    have := List.find?_eq_none.mp hnomatch o ho
    simp [hcontra] at this

/-- C10 witness: over one order O1 (expected 300), the list
`["O1", "OX", "O1"]` sums to 300 + 0 + 300 (the duplicate counts twice, the
unmatched `OX` adds nothing), and no record of the run carries `OX`. -/
theorem C10_denominator_witness :
    ([⟨"O1", "S1", "2024-01-15", 300⟩] : List Order).find?
        (fun o => o.order_id == "OX") = none ∧
    reportExpectedSum [⟨"O1", "S1", "2024-01-15", 300⟩] (["O1", "OX"] ++ "O1" :: [])
        = reportExpectedSum [⟨"O1", "S1", "2024-01-15", 300⟩] ["O1", "OX"]
          + expectedOf [⟨"O1", "S1", "2024-01-15", 300⟩] "O1"
          + reportExpectedSum [⟨"O1", "S1", "2024-01-15", 300⟩] [] ∧
    expectedOf [⟨"O1", "S1", "2024-01-15", 300⟩] "OX" = 0 ∧
    (∀ r ∈ reconcileRecords "2024-01-15" "t0" [⟨"O1", "S1", "2024-01-15", 300⟩]
        [⟨"R1", "S1", "2024-01-15", 600, some ["O1", "OX", "O1"]⟩],
      r.order_id ≠ "OX") := by
  refine ⟨by simp [List.find?], ?_⟩
  exact C10_denominator "2024-01-15" "t0" [⟨"O1", "S1", "2024-01-15", 300⟩]
    [⟨"R1", "S1", "2024-01-15", 600, some ["O1", "OX", "O1"]⟩]
    ["O1", "OX"] [] "O1" "OX" (by simp [List.find?])
theorem reconcileOrder_malformed (date now : String) (orders : List Order)
    (l₁ l₂ : List CashReport) (R : CashReport) (hbad : R.order_ids = none) (o : Order) :
    reconcileOrder date now orders (l₁ ++ R :: l₂) o
      = reconcileOrder date now orders (l₁ ++ { R with order_ids := some [] } :: l₂) o := by
  unfold reconcileOrder
  rw [orderToReport_skip l₁ l₂ R { R with order_ids := some [] }
    (by simp [parsedIds, hbad]) (by simp [parsedIds]) o.order_id]
  simp only [sumForReportId_malformed orders l₁ l₂ R hbad]

/-- C8: a report whose stored claimed-order-list fails to parse behaves
exactly as if it claimed an empty list: the run produces the very same
records as with that report's list replaced by `[]`, and still yields one
record per order in scope (no abort). -/
theorem C8_malformed_report (date now : String) (orders : List Order)
    (reports₁ reports₂ : List CashReport) (R : CashReport)
    (hbad : R.order_ids = none) :
    reconcileRecords date now orders (reports₁ ++ R :: reports₂)
        = reconcileRecords date now orders
            (reports₁ ++ { R with order_ids := some [] } :: reports₂) ∧
    (reconcileRecords date now orders (reports₁ ++ R :: reports₂)).length
        = orders.length := by
  constructor
  · unfold reconcileRecords
    exact List.map_congr_left
      (fun o _ => reconcileOrder_malformed date now orders reports₁ reports₂ R hbad o)
  · unfold reconcileRecords
    exact List.length_map orders _

/-- C8 witness: a malformed report alongside a good one leaves the good
report's matching intact, and both orders still get a record. -/
theorem C8_malformed_report_witness :
    ((⟨"R2", "S1", "2024-01-15", 100, none⟩ : CashReport).order_ids = none) ∧
    reconcileRecords "2024-01-15" "t0"
        [⟨"O1", "S1", "2024-01-15", 500⟩, ⟨"O2", "S1", "2024-01-15", 400⟩]
        ([⟨"R1", "S1", "2024-01-15", 500, some ["O1"]⟩]
          ++ ⟨"R2", "S1", "2024-01-15", 100, none⟩ :: [])
      = reconcileRecords "2024-01-15" "t0"
          [⟨"O1", "S1", "2024-01-15", 500⟩, ⟨"O2", "S1", "2024-01-15", 400⟩]
          ([⟨"R1", "S1", "2024-01-15", 500, some ["O1"]⟩]
            ++ ⟨"R2", "S1", "2024-01-15", 100, some []⟩ :: []) ∧
    (reconcileRecords "2024-01-15" "t0"
        [⟨"O1", "S1", "2024-01-15", 500⟩, ⟨"O2", "S1", "2024-01-15", 400⟩]
        ([⟨"R1", "S1", "2024-01-15", 500, some ["O1"]⟩]
          ++ ⟨"R2", "S1", "2024-01-15", 100, none⟩ :: [])).length = 2 := by
  refine ⟨rfl, ?_, ?_⟩
  · exact (C8_malformed_report "2024-01-15" "t0"
      [⟨"O1", "S1", "2024-01-15", 500⟩, ⟨"O2", "S1", "2024-01-15", 400⟩]
      [⟨"R1", "S1", "2024-01-15", 500, some ["O1"]⟩] []
      ⟨"R2", "S1", "2024-01-15", 100, none⟩ rfl).1
  · exact (C8_malformed_report "2024-01-15" "t0"
      [⟨"O1", "S1", "2024-01-15", 500⟩, ⟨"O2", "S1", "2024-01-15", 400⟩]
      [⟨"R1", "S1", "2024-01-15", 500, some ["O1"]⟩] []
      ⟨"R2", "S1", "2024-01-15", 100, none⟩ rfl).2
/-- C2 (amended): conservation holds for a report R provided its claimed
identifier list has no duplicates, in-scope order identifiers are unique,
every in-scope order R claims is last-claimed by R itself (no later report
steals it), R is the report stored under its own identifier, and its
claimed-expected sum is positive: then the allocated amounts over R's
claimed orders sum to R's collected total within 0.01 per claimed order.
The added hypotheses are forced by the counterexample below. -/
theorem C2_conservation (date now : String) (orders : List Order)
    (reports : List CashReport) (R : CashReport)
    (hids : (parsedIds R).Nodup)
    (hnodup : (orders.map (fun o => o.order_id)).Nodup)
    (hclaims : ∀ o ∈ orders, ((parsedIds R).contains o.order_id) = true →
        orderToReport reports o.order_id = some R)
    (hlast : reportMetaLookup reports R.report_id = some R)
    (hpos : 0 < reportExpectedSum orders (parsedIds R)) :
    |claimedSum (reconcileRecords date now orders reports) R - R.total_collected|
      ≤ (claimedCount (reconcileRecords date now orders reports) R : ℚ) * (1/100) := by
  have hrecfilter :
      (reconcileRecords date now orders reports).filter
        (fun r => (parsedIds R).contains r.order_id)
      = (orders.filter (fun o => (parsedIds R).contains o.order_id)).map
          (reconcileOrder date now orders reports) := by
    unfold reconcileRecords
    rw [map_filter_comm]
    congr 1
    apply List.filter_congr
    intro o _
    rw [reconcileOrder_order_id]
  have hsumFor : sumForReportId orders reports R.report_id
      = reportExpectedSum orders (parsedIds R) := by
    unfold sumForReportId
    rw [hlast]
  have halloc : ∀ o ∈ orders.filter (fun o => (parsedIds R).contains o.order_id),
      (reconcileOrder date now orders reports o).actual_amount.getD 0
        = round2 (o.expected_amount / reportExpectedSum orders (parsedIds R)
            * R.total_collected) := by
    intro o ho
    obtain ⟨ho1, ho2⟩ := List.mem_filter.mp ho
    have hrep := hclaims o ho1 ho2
    unfold reconcileOrder
    rw [hrep]
    simp only [hsumFor, if_pos hpos, Option.getD_some]
  have hsum_eq : claimedSum (reconcileRecords date now orders reports) R
      = ((orders.filter (fun o => (parsedIds R).contains o.order_id)).map
          (fun o => round2 (o.expected_amount / reportExpectedSum orders (parsedIds R)
            * R.total_collected))).sum := by
    unfold claimedSum
    rw [hrecfilter, List.map_map]
    congr 1
    exact List.map_congr_left halloc
  have hcount : (claimedCount (reconcileRecords date now orders reports) R : ℚ)
      = ((orders.filter (fun o => (parsedIds R).contains o.order_id)).length : ℚ) := by
    unfold claimedCount
    rw [hrecfilter, List.length_map]
  have hsplit : ((orders.filter (fun o => (parsedIds R).contains o.order_id)).map
      (fun o => o.expected_amount / reportExpectedSum orders (parsedIds R)
        * R.total_collected)).sum = R.total_collected := by
    have hmc : (orders.filter (fun o => (parsedIds R).contains o.order_id)).map
        (fun o => o.expected_amount / reportExpectedSum orders (parsedIds R)
          * R.total_collected)
        = (orders.filter (fun o => (parsedIds R).contains o.order_id)).map
            (fun o => o.expected_amount
              * (R.total_collected / reportExpectedSum orders (parsedIds R))) := by
      apply List.map_congr_left
      intro o _
      rw [div_mul_eq_mul_div, mul_div_assoc]
    rw [hmc, sum_map_mul_const,
      ← reportExpectedSum_eq_claimed_sum orders (parsedIds R) hids hnodup,
      mul_comm, div_mul_cancel₀ R.total_collected (ne_of_gt hpos)]
  have hbound := sum_round2_map_bound
    (orders.filter (fun o => (parsedIds R).contains o.order_id))
    (fun o => o.expected_amount / reportExpectedSum orders (parsedIds R)
      * R.total_collected)
  rw [hsplit] at hbound
  rw [hsum_eq, hcount]
  have hlen : (0:ℚ) ≤ ((orders.filter
      (fun o => (parsedIds R).contains o.order_id)).length : ℚ) := by positivity
  calc |((orders.filter (fun o => (parsedIds R).contains o.order_id)).map
        (fun o => round2 (o.expected_amount / reportExpectedSum orders (parsedIds R)
          * R.total_collected))).sum - R.total_collected|
      ≤ ((orders.filter (fun o => (parsedIds R).contains o.order_id)).length : ℚ)
          * (1/200) := hbound
    _ ≤ _ := by linarith
theorem reportExpectedSum_nil (orders : List Order) : reportExpectedSum orders [] = 0 := rfl

theorem reportExpectedSum_cons (orders : List Order) (i : String) (ids : List String) :
    reportExpectedSum orders (i :: ids)
      = expectedOf orders i + reportExpectedSum orders ids := by
  rw [reportExpectedSum_eq_sum_map, reportExpectedSum_eq_sum_map, List.map_cons,
    List.sum_cons]

/-- C2 witness: orders expected 300 and 200 claimed by the sole report that
collected 550 satisfy every hypothesis, so the allocations (330 and 220) sum
back to 550 within the 2-cent tolerance. -/
theorem C2_conservation_witness :
    (parsedIds ⟨"R1", "S1", "2024-01-15", 550, some ["O1", "O2"]⟩).Nodup ∧
    (([⟨"O1", "S1", "2024-01-15", 300⟩, ⟨"O2", "S1", "2024-01-15", 200⟩] : List Order).map
        (fun o => o.order_id)).Nodup ∧
    (∀ o ∈ ([⟨"O1", "S1", "2024-01-15", 300⟩, ⟨"O2", "S1", "2024-01-15", 200⟩] : List Order),
      ((parsedIds ⟨"R1", "S1", "2024-01-15", 550, some ["O1", "O2"]⟩).contains
          o.order_id) = true →
        orderToReport [⟨"R1", "S1", "2024-01-15", 550, some ["O1", "O2"]⟩] o.order_id
          = some ⟨"R1", "S1", "2024-01-15", 550, some ["O1", "O2"]⟩) ∧
    reportMetaLookup [⟨"R1", "S1", "2024-01-15", 550, some ["O1", "O2"]⟩] "R1"
      = some ⟨"R1", "S1", "2024-01-15", 550, some ["O1", "O2"]⟩ ∧
    0 < reportExpectedSum
        [⟨"O1", "S1", "2024-01-15", 300⟩, ⟨"O2", "S1", "2024-01-15", 200⟩]
        (parsedIds ⟨"R1", "S1", "2024-01-15", 550, some ["O1", "O2"]⟩) ∧
    |claimedSum (reconcileRecords "2024-01-15" "t0"
        [⟨"O1", "S1", "2024-01-15", 300⟩, ⟨"O2", "S1", "2024-01-15", 200⟩]
        [⟨"R1", "S1", "2024-01-15", 550, some ["O1", "O2"]⟩])
        ⟨"R1", "S1", "2024-01-15", 550, some ["O1", "O2"]⟩ - 550|
      ≤ (claimedCount (reconcileRecords "2024-01-15" "t0"
          [⟨"O1", "S1", "2024-01-15", 300⟩, ⟨"O2", "S1", "2024-01-15", 200⟩]
          [⟨"R1", "S1", "2024-01-15", 550, some ["O1", "O2"]⟩])
          ⟨"R1", "S1", "2024-01-15", 550, some ["O1", "O2"]⟩ : ℚ) * (1/100) := by
  refine ⟨by simp [parsedIds], by simp, ?_, by simp [reportMetaLookup], ?_, ?_⟩
  · intro o ho _
    fin_cases ho <;> simp [orderToReport, parsedIds]
  · have h1 : expectedOf
        [⟨"O1", "S1", "2024-01-15", 300⟩, ⟨"O2", "S1", "2024-01-15", 200⟩] "O1"
        = 300 := rfl
    have h2 : expectedOf
        [⟨"O1", "S1", "2024-01-15", 300⟩, ⟨"O2", "S1", "2024-01-15", 200⟩] "O2"
        = 200 := rfl
    show (0:ℚ) < reportExpectedSum
        [⟨"O1", "S1", "2024-01-15", 300⟩, ⟨"O2", "S1", "2024-01-15", 200⟩]
        ["O1", "O2"]
    rw [reportExpectedSum_cons, reportExpectedSum_cons, reportExpectedSum_nil, h1, h2]
    norm_num
  · exact C2_conservation "2024-01-15" "t0"
      [⟨"O1", "S1", "2024-01-15", 300⟩, ⟨"O2", "S1", "2024-01-15", 200⟩]
      [⟨"R1", "S1", "2024-01-15", 550, some ["O1", "O2"]⟩]
      ⟨"R1", "S1", "2024-01-15", 550, some ["O1", "O2"]⟩
      (by simp [parsedIds]) (by simp)
      (by intro o ho _
          fin_cases ho <;> simp [orderToReport, parsedIds])
      (by simp [reportMetaLookup])
      (by
        have h1 : expectedOf
            [⟨"O1", "S1", "2024-01-15", 300⟩, ⟨"O2", "S1", "2024-01-15", 200⟩] "O1"
            = 300 := rfl
        have h2 : expectedOf
            [⟨"O1", "S1", "2024-01-15", 300⟩, ⟨"O2", "S1", "2024-01-15", 200⟩] "O2"
            = 200 := rfl
        show (0:ℚ) < reportExpectedSum
            [⟨"O1", "S1", "2024-01-15", 300⟩, ⟨"O2", "S1", "2024-01-15", 200⟩]
            ["O1", "O2"]
        rw [reportExpectedSum_cons, reportExpectedSum_cons, reportExpectedSum_nil, h1, h2]
        norm_num)
theorem reconcileOrder_actual (date now : String) (orders : List Order)
    (reports : List CashReport) (o : Order) (rep : CashReport)
    (h : orderToReport reports o.order_id = some rep) :
    (reconcileOrder date now orders reports o).actual_amount
      = some (if 0 < sumForReportId orders reports rep.report_id
          then round2 (o.expected_amount / sumForReportId orders reports rep.report_id
            * rep.total_collected)
          else round2 rep.total_collected) := by
  unfold reconcileOrder
  rw [h]

/-- C2 counterexample: report R1 claims the non-empty order set {A, B} with
positive expected sum 200, but a later report R2 also claims B and wins the
tie-break, so B's record is allocated from R2's total of 1000; the
allocations over R1's claimed orders sum to 1100, far outside the claimed
2-cent tolerance around R1's collected 200. -/
theorem C2_counterexample :
    reportExpectedSum [⟨"A", "S1", "D1", 100⟩, ⟨"B", "S1", "D1", 100⟩]
        (parsedIds ⟨"R1", "S1", "D1", 200, some ["A", "B"]⟩) = 200 ∧
    claimedCount (reconcileRecords "D1" "t0"
        [⟨"A", "S1", "D1", 100⟩, ⟨"B", "S1", "D1", 100⟩]
        [⟨"R1", "S1", "D1", 200, some ["A", "B"]⟩, ⟨"R2", "S1", "D1", 1000, some ["B"]⟩])
        ⟨"R1", "S1", "D1", 200, some ["A", "B"]⟩ = 2 ∧
    claimedSum (reconcileRecords "D1" "t0"
        [⟨"A", "S1", "D1", 100⟩, ⟨"B", "S1", "D1", 100⟩]
        [⟨"R1", "S1", "D1", 200, some ["A", "B"]⟩, ⟨"R2", "S1", "D1", 1000, some ["B"]⟩])
        ⟨"R1", "S1", "D1", 200, some ["A", "B"]⟩ = 1100 ∧
    ¬(|claimedSum (reconcileRecords "D1" "t0"
        [⟨"A", "S1", "D1", 100⟩, ⟨"B", "S1", "D1", 100⟩]
        [⟨"R1", "S1", "D1", 200, some ["A", "B"]⟩, ⟨"R2", "S1", "D1", 1000, some ["B"]⟩])
        ⟨"R1", "S1", "D1", 200, some ["A", "B"]⟩
        - (⟨"R1", "S1", "D1", 200, some ["A", "B"]⟩ : CashReport).total_collected|
      ≤ (claimedCount (reconcileRecords "D1" "t0"
          [⟨"A", "S1", "D1", 100⟩, ⟨"B", "S1", "D1", 100⟩]
          [⟨"R1", "S1", "D1", 200, some ["A", "B"]⟩,
            ⟨"R2", "S1", "D1", 1000, some ["B"]⟩])
          ⟨"R1", "S1", "D1", 200, some ["A", "B"]⟩ : ℚ) * (1/100)) := by
  have eA : expectedOf [⟨"A", "S1", "D1", 100⟩, ⟨"B", "S1", "D1", 100⟩] "A" = 100 := rfl
  have eB : expectedOf [⟨"A", "S1", "D1", 100⟩, ⟨"B", "S1", "D1", 100⟩] "B" = 100 := rfl
  have hRES : reportExpectedSum [⟨"A", "S1", "D1", 100⟩, ⟨"B", "S1", "D1", 100⟩]
      (parsedIds ⟨"R1", "S1", "D1", 200, some ["A", "B"]⟩) = 200 := by
    show reportExpectedSum [⟨"A", "S1", "D1", 100⟩, ⟨"B", "S1", "D1", 100⟩]
      ["A", "B"] = 200
    rw [reportExpectedSum_cons, reportExpectedSum_cons, reportExpectedSum_nil, eA, eB]
    norm_num
  have hS1 : sumForReportId [⟨"A", "S1", "D1", 100⟩, ⟨"B", "S1", "D1", 100⟩]
      [⟨"R1", "S1", "D1", 200, some ["A", "B"]⟩, ⟨"R2", "S1", "D1", 1000, some ["B"]⟩]
      "R1" = 200 := by
    show reportExpectedSum [⟨"A", "S1", "D1", 100⟩, ⟨"B", "S1", "D1", 100⟩]
      ["A", "B"] = 200
    rw [reportExpectedSum_cons, reportExpectedSum_cons, reportExpectedSum_nil, eA, eB]
    norm_num
  have hS2 : sumForReportId [⟨"A", "S1", "D1", 100⟩, ⟨"B", "S1", "D1", 100⟩]
      [⟨"R1", "S1", "D1", 200, some ["A", "B"]⟩, ⟨"R2", "S1", "D1", 1000, some ["B"]⟩]
      "R2" = 100 := by
    show reportExpectedSum [⟨"A", "S1", "D1", 100⟩, ⟨"B", "S1", "D1", 100⟩]
      ["B"] = 100
    rw [reportExpectedSum_cons, reportExpectedSum_nil, eB]
    norm_num
  have hactA : (reconcileOrder "D1" "t0"
      [⟨"A", "S1", "D1", 100⟩, ⟨"B", "S1", "D1", 100⟩]
      [⟨"R1", "S1", "D1", 200, some ["A", "B"]⟩, ⟨"R2", "S1", "D1", 1000, some ["B"]⟩]
      ⟨"A", "S1", "D1", 100⟩).actual_amount = some 100 := by
    rw [reconcileOrder_actual "D1" "t0"
      [⟨"A", "S1", "D1", 100⟩, ⟨"B", "S1", "D1", 100⟩]
      [⟨"R1", "S1", "D1", 200, some ["A", "B"]⟩, ⟨"R2", "S1", "D1", 1000, some ["B"]⟩]
      ⟨"A", "S1", "D1", 100⟩ ⟨"R1", "S1", "D1", 200, some ["A", "B"]⟩ rfl]
    rw [show (⟨"R1", "S1", "D1", 200, some ["A", "B"]⟩ : CashReport).report_id
      = "R1" from rfl, hS1]
    rw [if_pos (by norm_num : (0:ℚ) < 200)]
    norm_num [round2, jsRound]
  have hactB : (reconcileOrder "D1" "t0"
      [⟨"A", "S1", "D1", 100⟩, ⟨"B", "S1", "D1", 100⟩]
      [⟨"R1", "S1", "D1", 200, some ["A", "B"]⟩, ⟨"R2", "S1", "D1", 1000, some ["B"]⟩]
      ⟨"B", "S1", "D1", 100⟩).actual_amount = some 1000 := by
    rw [reconcileOrder_actual "D1" "t0"
      [⟨"A", "S1", "D1", 100⟩, ⟨"B", "S1", "D1", 100⟩]
      [⟨"R1", "S1", "D1", 200, some ["A", "B"]⟩, ⟨"R2", "S1", "D1", 1000, some ["B"]⟩]
      ⟨"B", "S1", "D1", 100⟩ ⟨"R2", "S1", "D1", 1000, some ["B"]⟩ rfl]
    rw [show (⟨"R2", "S1", "D1", 1000, some ["B"]⟩ : CashReport).report_id
      = "R2" from rfl, hS2]
    rw [if_pos (by norm_num : (0:ℚ) < 100)]
    norm_num [round2, jsRound]
  have hCS : claimedSum (reconcileRecords "D1" "t0"
      [⟨"A", "S1", "D1", 100⟩, ⟨"B", "S1", "D1", 100⟩]
      [⟨"R1", "S1", "D1", 200, some ["A", "B"]⟩, ⟨"R2", "S1", "D1", 1000, some ["B"]⟩])
      ⟨"R1", "S1", "D1", 200, some ["A", "B"]⟩ = 1100 := by
    show (reconcileOrder "D1" "t0"
        [⟨"A", "S1", "D1", 100⟩, ⟨"B", "S1", "D1", 100⟩]
        [⟨"R1", "S1", "D1", 200, some ["A", "B"]⟩, ⟨"R2", "S1", "D1", 1000, some ["B"]⟩]
        ⟨"A", "S1", "D1", 100⟩).actual_amount.getD 0
      + ((reconcileOrder "D1" "t0"
        [⟨"A", "S1", "D1", 100⟩, ⟨"B", "S1", "D1", 100⟩]
        [⟨"R1", "S1", "D1", 200, some ["A", "B"]⟩, ⟨"R2", "S1", "D1", 1000, some ["B"]⟩]
        ⟨"B", "S1", "D1", 100⟩).actual_amount.getD 0 + 0) = 1100
    rw [hactA, hactB]
    norm_num
  have hCC : claimedCount (reconcileRecords "D1" "t0"
      [⟨"A", "S1", "D1", 100⟩, ⟨"B", "S1", "D1", 100⟩]
      [⟨"R1", "S1", "D1", 200, some ["A", "B"]⟩, ⟨"R2", "S1", "D1", 1000, some ["B"]⟩])
      ⟨"R1", "S1", "D1", 200, some ["A", "B"]⟩ = 2 := rfl
  refine ⟨hRES, hCC, hCS, ?_⟩
  rw [hCS, hCC]
  norm_num

end BodegaVerde
